import Mathlib

/-!
Shallow embedding of the transaction-api repository (Go) used to check the
natural-language specification against the code.

Monetary amounts are `float64` in the source; they are modelled here as
rationals (`ℚ`), which matches the spec's fixed-precision-decimal reading and
keeps every comparison in the code exact.  Timestamps (`time.Time`) are
modelled as integers (nanoseconds since the epoch), so `t.Before(u)` is
`t < u` and `now.Sub(t) >= d` is `d ≤ now - t`.
-/

deriving instance DecidableEq for Except

namespace TransactionAPI

/-- Error kinds, from pkg/domain/errors.go (each `errors.New` value the
embedded functions can return). -/
inductive DomainError where
  | invalidAmount
  | insufficientBalance
  | invalidState
  | invalidTransactionStatus
  | concurrentModification
  | invalidScheduledTime
  | transactionLimitExceeded
  | dailyLimitExceeded
  | dailyCountExceeded
  deriving DecidableEq, Repr

/-- Transaction states, from part_007 (`TransactionState` constants). -/
inductive TransactionState where
  | pending
  | completed
  | failed
  | cancelled
  deriving DecidableEq, Repr

/-- The string value underlying each `TransactionState` constant (Go declares
the type as a string). -/
def stateString : TransactionState → String
  | .pending => "pending"
  | .completed => "completed"
  | .failed => "failed"
  | .cancelled => "cancelled"

/-- Event type vocabulary, from pkg/domain/errors.go (`EventType` constants). -/
inductive EventType where
  | transactionCreated
  | transactionCompleted
  | transactionFailed
  | transactionCancelled
  | transactionRolledBack
  | balanceCreated
  | balanceUpdated
  | balanceDebited
  | balanceCredited
  | userCreated
  | userUpdated
  deriving DecidableEq, Repr

/-! ## Balance — pkg/domain/balance.go -/

/-- `Balance`, keeping only the mutable monetary field the claims are about
(the ID/user/currency/timestamp fields never affect `Add`/`Subtract`). -/
structure Balance where
  amount : ℚ
  deriving DecidableEq, Repr

/-- `NewBalance` (balance.go lines 29-42): rejects a negative initial amount. -/
def NewBalance (initialAmount : ℚ) : Except DomainError Balance :=
  if initialAmount < 0 then .error .invalidAmount
  else .ok { amount := initialAmount }

/-- `Balance.Add` (balance.go lines 44-55). -/
def Balance.Add (b : Balance) (amount : ℚ) : Except DomainError Balance :=
  if amount ≤ 0 then .error .invalidAmount
  else .ok { b with amount := b.amount + amount }

/-- `Balance.Subtract` (balance.go lines 57-72). -/
def Balance.Subtract (b : Balance) (amount : ℚ) : Except DomainError Balance :=
  if amount ≤ 0 then .error .invalidAmount
  else if b.amount < amount then .error .insufficientBalance
  else .ok { b with amount := b.amount - amount }

/-- One credit or debit request against a balance. -/
inductive BalanceOp where
  | add (amount : ℚ)
  | subtract (amount : ℚ)
  deriving DecidableEq, Repr

/-- Applying one operation to a balance: the Go methods mutate the receiver
only on the success path, so on error the balance is unchanged. -/
def applyBalanceOp (b : Balance) (op : BalanceOp) : Balance :=
  match op with
  | .add a =>
    match b.Add a with
    | .ok b2 => b2
    | .error _ => b
  | .subtract a =>
    match b.Subtract a with
    | .ok b2 => b2
    | .error _ => b

/-! ## Transaction state machine — src/unnamed/part_007 -/

/-- The `Transaction` of part_007 lines 28-40, whose `Status` field is a raw
string. -/
structure TransactionRow where
  status : String
  deriving DecidableEq, Repr

/-- `Transaction.UpdateState`, string-status variant (part_007 lines 70-90).
The Go `switch` has cases for "pending", "completed", "failed" and
"rolled_back"; any other status (in particular "cancelled") falls out of the
switch and the assignment `t.Status = string(newState)` runs. -/
def TransactionRow.UpdateState (t : TransactionRow) (newState : TransactionState) :
    Except DomainError TransactionRow :=
  if t.status = "pending" then
    if newState ≠ .completed ∧ newState ≠ .failed ∧ newState ≠ .cancelled then
      .error .invalidState
    else .ok { status := stateString newState }
  else if t.status = "completed" then .error .invalidState
  else if t.status = "failed" then .error .invalidState
  else if t.status = "rolled_back" then .error .invalidState
  else .ok { status := stateString newState }

/-- The `Transaction` of part_007 lines 129-139 (uint-ID variant), whose
`State` field holds the typed constants. -/
structure TransactionU where
  state : TransactionState
  deriving DecidableEq, Repr

/-- `Transaction.UpdateState`, uint-ID variant (part_007 lines 157-177): all
three terminal constants have their own `return ErrInvalidState` case. -/
def TransactionU.UpdateState (t : TransactionU) (newState : TransactionState) :
    Except DomainError TransactionU :=
  match t.state with
  | .pending =>
    if newState ≠ .completed ∧ newState ≠ .failed ∧ newState ≠ .cancelled then
      .error .invalidState
    else .ok { state := newState }
  | .completed => .error .invalidState
  | .failed => .error .invalidState
  | .cancelled => .error .invalidState

/-! ## Scheduled transactions — pkg/domain/advanced_transaction.go and
src/unnamed/part_011 -/

/-- `ScheduledTransactionRequest` (advanced_transaction.go lines 51-62),
restricted to the fields `NewScheduledTransaction` reads. -/
structure ScheduledTransactionRequest where
  amount : ℚ
  scheduledAt : ℤ
  maxRetries : Option ℤ
  deriving DecidableEq, Repr

/-- `ScheduledTransaction` (advanced_transaction.go lines 29-49), restricted
to the fields the embedded methods read or write. -/
structure ScheduledTransaction where
  amount : ℚ
  scheduledAt : ℤ
  status : String
  maxRetries : ℤ
  retryCount : ℤ
  deriving DecidableEq, Repr

/-- `NewScheduledTransaction` (advanced_transaction.go lines 171-203).  The
time guard is `req.ScheduledAt.Before(time.Now())`, a strict comparison. -/
def NewScheduledTransaction (req : ScheduledTransactionRequest) (now : ℤ) :
    Except DomainError ScheduledTransaction :=
  if req.amount ≤ 0 then .error .invalidAmount
  else if req.scheduledAt < now then .error .invalidScheduledTime
  else .ok { amount := req.amount
             scheduledAt := req.scheduledAt
             status := "pending"
             maxRetries := req.maxRetries.getD 3
             retryCount := 0 }

/-- `ScheduledTransaction.CanRetry` (advanced_transaction.go lines 284-289). -/
def ScheduledTransaction.CanRetry (st : ScheduledTransaction) : Prop :=
  st.status = "failed" ∧ st.retryCount < st.maxRetries

instance (st : ScheduledTransaction) : Decidable st.CanRetry :=
  inferInstanceAs (Decidable (_ ∧ _))

/-- `ScheduledTransaction.IncrementRetry` (advanced_transaction.go lines
291-299). -/
def ScheduledTransaction.IncrementRetry (st : ScheduledTransaction) : ScheduledTransaction :=
  { st with retryCount := st.retryCount + 1 }

/-- `ScheduledTransaction.UpdateStatus` (advanced_transaction.go lines
301-307). -/
def ScheduledTransaction.UpdateStatus (st : ScheduledTransaction) (status : String) :
    ScheduledTransaction :=
  { st with status := status }

/-- The failure branch of `executeScheduledTransaction` (part_011 lines
141-149): after the ledger operation errors, the sweep increments the retry
counter and keeps the transaction as failed only when `CanRetry()` holds,
cancelling it otherwise. -/
def executeScheduledTransactionOnFailure (st : ScheduledTransaction) : ScheduledTransaction :=
  let st1 := st.IncrementRetry
  if st1.CanRetry then st1.UpdateStatus "failed"
  else st1.UpdateStatus "cancelled"

/-! ## Transaction limits — pkg/domain/advanced_transaction.go -/

/-- 24 hours in nanoseconds (`24*time.Hour`). -/
def dayNano : ℤ := 86400000000000

/-- `TransactionLimit` (advanced_transaction.go lines 107-126), with the
fields its checks read or reset. -/
structure TransactionLimit where
  dailyLimit : ℚ
  weeklyLimit : ℚ
  monthlyLimit : ℚ
  singleLimit : ℚ
  dailyCount : ℤ
  weeklyCount : ℤ
  monthlyCount : ℤ
  dailyAmount : ℚ
  weeklyAmount : ℚ
  monthlyAmount : ℚ
  lastResetDate : ℤ
  isActive : Bool
  deriving DecidableEq, Repr

/-- `resetDailyLimits` (advanced_transaction.go lines 369-373). -/
def TransactionLimit.resetDailyLimits (tl : TransactionLimit) (now : ℤ) : TransactionLimit :=
  { tl with dailyAmount := 0, dailyCount := 0, lastResetDate := now }

/-- `CheckSingleLimit` (advanced_transaction.go lines 322-335). -/
def TransactionLimit.CheckSingleLimit (tl : TransactionLimit) (amount : ℚ) :
    Except DomainError Unit :=
  if tl.isActive = false then .ok ()
  else if tl.singleLimit < amount then .error .transactionLimitExceeded
  else .ok ()

/-- `CheckDailyLimit` (advanced_transaction.go lines 337-358).  The method
mutates the receiver when the daily window has elapsed, so the model returns
the check result together with the (possibly reset) limit row. -/
def TransactionLimit.CheckDailyLimit (tl : TransactionLimit) (amount : ℚ) (now : ℤ) :
    Except DomainError Unit × TransactionLimit :=
  if tl.isActive = false then (.ok (), tl)
  else
    let tl1 := if dayNano ≤ now - tl.lastResetDate then tl.resetDailyLimits now else tl
    if tl1.dailyLimit < tl1.dailyAmount + amount then (.error .dailyLimitExceeded, tl1)
    else if 100 ≤ tl1.dailyCount then (.error .dailyCountExceeded, tl1)
    else (.ok (), tl1)

/-! ## Circuit breaker — pkg/logger/logger.go (package circuitbreaker) -/

/-- Breaker states (logger.go `State` constants). -/
inductive CBState where
  | closed
  | opened
  | halfOpen
  deriving DecidableEq, Repr

/-- `Config` (logger.go lines 63-70), restricted to the fields the embedded
transitions read. -/
structure CBConfig where
  failureThreshold : ℤ
  successThreshold : ℤ
  halfOpenMaxRequests : ℤ
  minRequestCount : ℤ
  deriving DecidableEq, Repr

/-- `CircuitBreaker` together with its `Counts` (logger.go lines 72-91);
durations and timestamps are not needed by the embedded transitions. -/
structure CircuitBreaker where
  config : CBConfig
  state : CBState
  requests : ℤ
  totalErrors : ℤ
  consecutiveErrors : ℤ
  consecutiveSuccesses : ℤ
  deriving DecidableEq, Repr

/-- `shouldOpen` (logger.go lines 212-218). -/
def CircuitBreaker.shouldOpen (cb : CircuitBreaker) : Bool :=
  if cb.requests < cb.config.minRequestCount then false
  else decide (cb.config.failureThreshold ≤ cb.consecutiveErrors)

/-- `shouldClose` (logger.go lines 220-226). -/
def CircuitBreaker.shouldClose (cb : CircuitBreaker) : Bool :=
  if cb.state ≠ .halfOpen then false
  else decide (cb.config.successThreshold ≤ cb.consecutiveSuccesses)

/-- `transitionToOpen` (logger.go lines 228-237). -/
def CircuitBreaker.transitionToOpen (cb : CircuitBreaker) : CircuitBreaker :=
  if cb.state ≠ .opened then { cb with state := .opened } else cb

/-- `transitionToHalfOpen` (logger.go lines 239-255): only fires from OPEN and
resets the request and consecutive counters. -/
def CircuitBreaker.transitionToHalfOpen (cb : CircuitBreaker) : CircuitBreaker :=
  if cb.state = .opened then
    { cb with state := .halfOpen, requests := 0,
              consecutiveErrors := 0, consecutiveSuccesses := 0 }
  else cb

/-- `transitionToClosed` (logger.go lines 257-274). -/
def CircuitBreaker.transitionToClosed (cb : CircuitBreaker) : CircuitBreaker :=
  if cb.state = .halfOpen then
    { cb with state := .closed, requests := 0, totalErrors := 0,
              consecutiveErrors := 0, consecutiveSuccesses := 0 }
  else cb

/-- `recordResult` (logger.go lines 188-210), with the result abstracted to
whether `err != nil`. -/
def CircuitBreaker.recordResult (cb : CircuitBreaker) (isError : Bool) : CircuitBreaker :=
  if isError then
    let cb1 := { cb with totalErrors := cb.totalErrors + 1,
                         consecutiveErrors := cb.consecutiveErrors + 1,
                         consecutiveSuccesses := 0 }
    if cb1.shouldOpen then cb1.transitionToOpen else cb1
  else
    let cb1 := { cb with consecutiveSuccesses := cb.consecutiveSuccesses + 1,
                         consecutiveErrors := 0 }
    if cb1.shouldClose then cb1.transitionToClosed else cb1

/-! ## Database cluster — pkg/cache/warmup.go -/

/-- `DatabaseNode` (warmup.go lines 480-492), keeping the routing-relevant
flag. -/
structure DatabaseNode where
  isActive : Bool
  deriving DecidableEq, Repr

/-- `DatabaseCluster` (warmup.go lines 506-515): `slaveNodes` stands for the
configured slave nodes, index-aligned with the connected `slaveDBs` handles. -/
structure DatabaseCluster where
  slaveNodes : List DatabaseNode
  deriving DecidableEq, Repr

/-- A returned connection handle: the master, or the slave at a given index. -/
inductive DBHandle where
  | master
  | slave (index : ℕ)
  deriving DecidableEq, Repr

/-- `GetSlaveDB` (warmup.go lines 592-602): with a non-empty slave list it
returns `slaveDBs[time.Now().UnixNano() % len(slaveDBs)]`; the clock value is
passed in as `nowUnixNano` (non-negative for any real clock). -/
def DatabaseCluster.GetSlaveDB (c : DatabaseCluster) (nowUnixNano : ℕ) : DBHandle :=
  if c.slaveNodes.length = 0 then .master
  else .slave (nowUnixNano % c.slaveNodes.length)

/-! ## Event store — pkg/repository/event_store.go -/

/-- An in-memory event carrying the fields `SaveEvents` reads: the event's own
aggregate ID (the inserted row copies `event.GetAggregateID()`) and an opaque
payload. -/
structure DomainEvent where
  aggregateId : ℕ
  payload : ℕ
  deriving DecidableEq, Repr

/-- A persisted `event_store` row, with the columns the claims are about. -/
structure StoredEvent where
  aggregateId : ℕ
  version : ℤ
  payload : ℕ
  deriving DecidableEq, Repr

/-- `COALESCE(MAX(version), 0) WHERE aggregate_id = A` over the store. -/
def maxVersion (store : List StoredEvent) (aggregateId : ℕ) : ℤ :=
  (store.filter (fun e => e.aggregateId = aggregateId)).foldr
    (fun e m => max e.version m) 0

/-- The insert loop of `SaveEvents` (event_store.go lines 56-78): the i-th
event is stored with `Version = expectedVersion + i + 1` and with the event's
own aggregate ID. -/
def insertEvents (events : List DomainEvent) (expectedVersion : ℤ) : List StoredEvent :=
  match events with
  | [] => []
  | e :: rest =>
    { aggregateId := e.aggregateId, version := expectedVersion + 1, payload := e.payload }
      :: insertEvents rest (expectedVersion + 1)

/-- `PostgresEventStore.SaveEvents` (event_store.go lines 39-82): read the
current maximum version for the aggregate inside the transaction, fail with
the concurrent-modification error when it differs from `expectedVersion`
(rolling back, so the store is unchanged), and otherwise commit the inserts. -/
def SaveEvents (store : List StoredEvent) (aggregateID : ℕ) (events : List DomainEvent)
    (expectedVersion : ℤ) : Except DomainError (List StoredEvent) :=
  let currentVersion := maxVersion store aggregateID
  if currentVersion ≠ expectedVersion then .error .concurrentModification
  else .ok (store ++ insertEvents events expectedVersion)

/-- `BaseAggregate` (balance.go aggregate section, lines 112-117), with the
fields `EventRepository.Save` uses. -/
structure BaseAggregate where
  id : ℕ
  version : ℤ
  uncommittedEvents : List DomainEvent
  deriving DecidableEq, Repr

/-- `BaseAggregate.MarkEventsAsCommitted` (balance.go lines 133-138): clears
the pending events and increments the version by exactly one. -/
def BaseAggregate.MarkEventsAsCommitted (a : BaseAggregate) : BaseAggregate :=
  { a with uncommittedEvents := [], version := a.version + 1 }

/-- `EventRepository.Save` (event_store.go lines 262-276): append the
aggregate's uncommitted events at `expectedVersion = aggregate.GetVersion()`,
then mark them committed. -/
def EventRepositorySave (store : List StoredEvent) (a : BaseAggregate) :
    Except DomainError (List StoredEvent × BaseAggregate) :=
  let events := a.uncommittedEvents
  if events.isEmpty then .ok (store, a)
  else
    match SaveEvents store a.id events a.version with
    | .error e => .error e
    | .ok store2 => .ok (store2, a.MarkEventsAsCommitted)

/-! ## State-changed event type — pkg/domain/errors.go lines 254-265

`EventTransactionStateChangedEventType` maps the three terminal state strings
to their event types; its default branch calls the function again on
`TransactionStatePending`.  The function is embedded by its call graph: the
inductive relation below holds of `(s, e)` exactly when the Go recursion,
started at `s`, terminates with value `e`.  (`TransactionState` is a string
type in Go, so the domain here is `String`.) -/
inductive StateChangedComputes : String → EventType → Prop where
  | completed : StateChangedComputes "completed" .transactionCompleted
  | failed : StateChangedComputes "failed" .transactionFailed
  | cancelled : StateChangedComputes "cancelled" .transactionCancelled
  | defaultCase (s : String) (e : EventType) :
      s ≠ "completed" → s ≠ "failed" → s ≠ "cancelled" →
      StateChangedComputes "pending" e → StateChangedComputes s e

/-! ## Helper lemmas -/

theorem applyBalanceOp_nonneg (b : Balance) (op : BalanceOp) (h : 0 ≤ b.amount) :
    0 ≤ (applyBalanceOp b op).amount := by
  cases op with
  | add a =>
    by_cases ha : a ≤ 0
    · simp [applyBalanceOp, Balance.Add, ha, h]
    · push_neg at ha
      simp only [applyBalanceOp, Balance.Add, if_neg (not_le.mpr ha)]
      exact add_nonneg h (le_of_lt ha)
  | subtract a =>
    by_cases ha : a ≤ 0
    · simp [applyBalanceOp, Balance.Subtract, ha, h]
    · by_cases hlt : b.amount < a
      · simp [applyBalanceOp, Balance.Subtract, ha, hlt, h]
      · push_neg at hlt
        simp only [applyBalanceOp, Balance.Subtract, if_neg ha, if_neg (not_lt.mpr hlt)]
        exact sub_nonneg.mpr hlt

theorem foldl_applyBalanceOp_nonneg (ops : List BalanceOp) (b : Balance)
    (h : 0 ≤ b.amount) : 0 ≤ (ops.foldl applyBalanceOp b).amount := by
  induction ops generalizing b with
  | nil => exact h
  | cons op rest ih => exact ih _ (applyBalanceOp_nonneg b op h)

/-! ## Claim theorems -/

/-- C2, counterexample: the claim asserts that subtracting exactly the current
balance always succeeds and leaves the amount at 0, but at a zero balance —
reachable, since `NewBalance` accepts a 0 initial amount — `Subtract(0)` fails
with the invalid-amount error instead of succeeding. -/
theorem C2_subtract_zero_balance_counterexample :
    NewBalance 0 = Except.ok { amount := 0 }
    ∧ Balance.Subtract { amount := 0 } 0 = Except.error DomainError.invalidAmount := by
  constructor <;> decide

/-- C2 (amended): for every balance created with a non-negative initial amount
and every finite sequence of Add/Subtract operations, the amount stays ≥ 0;
Subtract of exactly the current balance succeeds and leaves amount 0 whenever
the current balance is positive; Subtract of any amount strictly greater than
the current (non-negative) balance fails with the insufficient-funds error. -/
theorem C2_balance_nonneg_invariant (init : ℚ) (b0 : Balance) (ops : List BalanceOp)
    (b c : Balance) (a : ℚ)
    (h0 : NewBalance init = Except.ok b0) (hb : 0 < b.amount)
    (hc : 0 ≤ c.amount) (ha : c.amount < a) :
    0 ≤ (ops.foldl applyBalanceOp b0).amount
    ∧ b.Subtract b.amount = Except.ok { amount := 0 }
    ∧ c.Subtract a = Except.error DomainError.insufficientBalance := by
  have hb0 : 0 ≤ b0.amount := by
    by_cases hi : init < 0
    · unfold NewBalance at h0
      rw [if_pos hi] at h0
      cases h0
    · unfold NewBalance at h0
      rw [if_neg hi] at h0
      cases h0
      exact not_lt.mp hi
  refine ⟨foldl_applyBalanceOp_nonneg ops b0 hb0, ?_, ?_⟩
  · unfold Balance.Subtract
    rw [if_neg (not_le.mpr hb), if_neg (lt_irrefl _)]
    rw [sub_self]
  · unfold Balance.Subtract
    have ha0 : ¬ a ≤ 0 := not_le.mpr (lt_of_le_of_lt hc ha)
    rw [if_neg ha0, if_pos ha]

/-- C2 witness: the amended theorem applied at initial amount 2, the sequence
[add 5, subtract 3], an exact debit of a balance of 4, and an over-debit of 5
against a balance of 4. -/
theorem C2_balance_nonneg_invariant_witness :
    0 ≤ (([BalanceOp.add 5, BalanceOp.subtract 3].foldl applyBalanceOp
          { amount := 2 }).amount)
    ∧ Balance.Subtract { amount := 4 } 4 = Except.ok { amount := 0 }
    ∧ Balance.Subtract { amount := 4 } 5 = Except.error DomainError.insufficientBalance :=
  C2_balance_nonneg_invariant 2 { amount := 2 } [BalanceOp.add 5, BalanceOp.subtract 3]
    { amount := 4 } { amount := 4 } 5 (by decide) (by decide) (by decide) (by decide)

/-- C3: the claim says every terminal state is absorbing under `UpdateState`,
but in the string-status variant (part_007 lines 70-90) the switch has no
case for "cancelled" (it lists "rolled_back" instead), so a cancelled
transaction accepts a transition to completed; the uint variant does reject
it with the invalid-state error. -/
theorem C3_cancelled_not_absorbing :
    TransactionRow.UpdateState { status := "cancelled" } TransactionState.completed
      = Except.ok { status := "completed" }
    ∧ TransactionU.UpdateState { state := TransactionState.cancelled } TransactionState.completed
      = Except.error DomainError.invalidState := by
  constructor <;> decide

/-- C4: a pending scheduled transaction whose ledger operation fails is
cancelled by the sweep on the very first failure — `CanRetry` requires
`status = "failed"` but the status is still "pending" when it is consulted —
even though its retry count (1) is still below `max_retries` (3); the claim
(and the spec) say it should be set to failed and stay retryable. -/
theorem C4_first_failure_cancels :
    (executeScheduledTransactionOnFailure
      { amount := 10, scheduledAt := 0, status := "pending",
        maxRetries := 3, retryCount := 0 }).status = "cancelled"
    ∧ (executeScheduledTransactionOnFailure
      { amount := 10, scheduledAt := 0, status := "pending",
        maxRetries := 3, retryCount := 0 }).retryCount
      < (executeScheduledTransactionOnFailure
      { amount := 10, scheduledAt := 0, status := "pending",
        maxRetries := 3, retryCount := 0 }).maxRetries := by
  constructor <;> decide

/-- C6, counterexample: with a single configured slave whose `is_active` flag
is false, `GetSlaveDB` still returns that slave handle rather than the
master — the routing ignores `is_active` entirely. -/
theorem C6_inactive_slave_counterexample :
    DatabaseCluster.GetSlaveDB { slaveNodes := [{ isActive := false }] } 0
      = DBHandle.slave 0
    ∧ (List.all [({ isActive := false } : DatabaseNode)] (fun n => !n.isActive)) = true := by
  constructor <;> decide

/-- C6 (amended): `GetSlaveDB` selects among all connected slave handles
regardless of their `is_active` flags, using the clock value modulo the slave
count (not a round-robin counter), and returns the master handle exactly when
the slave list is empty. -/
theorem C6_get_slave_db (c : DatabaseCluster) (nowUnixNano : ℕ) :
    (c.slaveNodes ≠ [] →
      c.GetSlaveDB nowUnixNano = DBHandle.slave (nowUnixNano % c.slaveNodes.length))
    ∧ (c.slaveNodes = [] → c.GetSlaveDB nowUnixNano = DBHandle.master) := by
  constructor
  · intro h
    unfold DatabaseCluster.GetSlaveDB
    rw [if_neg (by simpa using h)]
  · intro h
    unfold DatabaseCluster.GetSlaveDB
    rw [if_pos (by simp [h])]

/-- C6 witness: a two-slave cluster (one inactive) at clock value 7 routes to
slave index 1 = 7 % 2. -/
theorem C6_get_slave_db_witness :
    DatabaseCluster.GetSlaveDB
      { slaveNodes := [{ isActive := false }, { isActive := true }] } 7
      = DBHandle.slave 1 :=
  (C6_get_slave_db { slaveNodes := [{ isActive := false }, { isActive := true }] } 7).1
    (by decide)

/-- C7, counterexample: the claim says a creation request with scheduled_at
exactly equal to the current time fails with the invalid-scheduled-time
error, but the guard is the strict `req.ScheduledAt.Before(time.Now())`, so
equality is accepted and a pending transaction is produced. -/
theorem C7_equal_time_accepted_counterexample :
    NewScheduledTransaction { amount := 1, scheduledAt := 100, maxRetries := none } 100
      = Except.ok { amount := 1, scheduledAt := 100, status := "pending",
                    maxRetries := 3, retryCount := 0 } := by
  decide

/-- C7 (amended): for a positive-amount request, `NewScheduledTransaction`
fails with the invalid-scheduled-time error exactly when scheduled_at is
strictly before the current time; for scheduled_at ≥ now (equality included)
it succeeds with status pending and retry_count 0. -/
theorem C7_scheduled_time (req : ScheduledTransactionRequest) (now : ℤ)
    (hamt : 0 < req.amount) :
    (req.scheduledAt < now →
      NewScheduledTransaction req now = Except.error DomainError.invalidScheduledTime)
    ∧ (now ≤ req.scheduledAt →
      NewScheduledTransaction req now
        = Except.ok { amount := req.amount, scheduledAt := req.scheduledAt,
                      status := "pending", maxRetries := req.maxRetries.getD 3,
                      retryCount := 0 }) := by
  have h0 : ¬ req.amount ≤ 0 := not_le.mpr hamt
  constructor
  · intro h
    unfold NewScheduledTransaction
    rw [if_neg h0, if_pos h]
  · intro h
    unfold NewScheduledTransaction
    rw [if_neg h0, if_neg (not_lt.mpr h)]

/-- C7 witness: a past request (scheduled_at 50 at now 100) is rejected and a
future one (scheduled_at 200 at now 100) is accepted as pending. -/
theorem C7_scheduled_time_witness :
    NewScheduledTransaction { amount := 2, scheduledAt := 50, maxRetries := none } 100
      = Except.error DomainError.invalidScheduledTime
    ∧ NewScheduledTransaction { amount := 2, scheduledAt := 200, maxRetries := none } 100
      = Except.ok { amount := 2, scheduledAt := 200, status := "pending",
                    maxRetries := 3, retryCount := 0 } :=
  ⟨(C7_scheduled_time { amount := 2, scheduledAt := 50, maxRetries := none } 100
      (by decide)).1 (by decide),
   (C7_scheduled_time { amount := 2, scheduledAt := 200, maxRetries := none } 100
      (by decide)).2 (by decide)⟩

/-- C5, counterexample: a breaker in HALF_OPEN with the default configuration
(failure_threshold 5, min_request_count 10) that records an error after its
single admitted request stays HALF_OPEN — `recordResult` only reopens when
`shouldOpen` holds, and the counters were reset on entry to HALF_OPEN, so the
claim that any error in HALF_OPEN transitions back to OPEN is false. -/
theorem C5_half_open_error_counterexample :
    (CircuitBreaker.recordResult
      { config := { failureThreshold := 5, successThreshold := 3,
                    halfOpenMaxRequests := 3, minRequestCount := 10 },
        state := CBState.halfOpen, requests := 1, totalErrors := 7,
        consecutiveErrors := 0, consecutiveSuccesses := 0 } true).state
      = CBState.halfOpen := by
  decide

/-- C5 (amended): in HALF_OPEN, recording an error transitions the breaker to
OPEN exactly when the request count has reached min_request_count and the
incremented consecutive-error count reaches failure_threshold; otherwise the
breaker stays HALF_OPEN.  Counters (requests, consecutive errors and
successes) are reset on entry to HALF_OPEN from OPEN. -/
theorem C5_half_open_error (cb d : CircuitBreaker)
    (hcb : cb.state = CBState.halfOpen) (hd : d.state = CBState.opened) :
    ((cb.recordResult true).state =
      if cb.config.minRequestCount ≤ cb.requests
         ∧ cb.config.failureThreshold ≤ cb.consecutiveErrors + 1
      then CBState.opened else CBState.halfOpen)
    ∧ (d.transitionToHalfOpen.state = CBState.halfOpen
       ∧ d.transitionToHalfOpen.requests = 0
       ∧ d.transitionToHalfOpen.consecutiveErrors = 0
       ∧ d.transitionToHalfOpen.consecutiveSuccesses = 0) := by
  constructor
  · by_cases h1 : cb.config.minRequestCount ≤ cb.requests
    · by_cases h2 : cb.config.failureThreshold ≤ cb.consecutiveErrors + 1
      · simp [CircuitBreaker.recordResult, CircuitBreaker.shouldOpen,
              CircuitBreaker.transitionToOpen, hcb, h1, h2, not_lt.mpr h1]
      · simp [CircuitBreaker.recordResult, CircuitBreaker.shouldOpen,
              CircuitBreaker.transitionToOpen, hcb, h1, h2, not_lt.mpr h1]
    · simp [CircuitBreaker.recordResult, CircuitBreaker.shouldOpen,
            CircuitBreaker.transitionToOpen, hcb, h1, not_le.mp h1]
  · unfold CircuitBreaker.transitionToHalfOpen
    rw [if_pos hd]
    exact ⟨rfl, rfl, rfl, rfl⟩

/-- C5 witness: the amended theorem at the default-config breaker of the
counterexample (which stays HALF_OPEN) and at an OPEN breaker with stale
counters (which are cleared on entry to HALF_OPEN). -/
theorem C5_half_open_error_witness :
    ((CircuitBreaker.recordResult
      { config := { failureThreshold := 5, successThreshold := 3,
                    halfOpenMaxRequests := 3, minRequestCount := 10 },
        state := CBState.halfOpen, requests := 1, totalErrors := 7,
        consecutiveErrors := 0, consecutiveSuccesses := 0 } true).state =
      if (10 : ℤ) ≤ 1 ∧ (5 : ℤ) ≤ 0 + 1 then CBState.opened else CBState.halfOpen)
    ∧ ((CircuitBreaker.transitionToHalfOpen
      { config := { failureThreshold := 5, successThreshold := 3,
                    halfOpenMaxRequests := 3, minRequestCount := 10 },
        state := CBState.opened, requests := 12, totalErrors := 9,
        consecutiveErrors := 6, consecutiveSuccesses := 2 }).state = CBState.halfOpen
       ∧ (CircuitBreaker.transitionToHalfOpen
      { config := { failureThreshold := 5, successThreshold := 3,
                    halfOpenMaxRequests := 3, minRequestCount := 10 },
        state := CBState.opened, requests := 12, totalErrors := 9,
        consecutiveErrors := 6, consecutiveSuccesses := 2 }).requests = 0
       ∧ (CircuitBreaker.transitionToHalfOpen
      { config := { failureThreshold := 5, successThreshold := 3,
                    halfOpenMaxRequests := 3, minRequestCount := 10 },
        state := CBState.opened, requests := 12, totalErrors := 9,
        consecutiveErrors := 6, consecutiveSuccesses := 2 }).consecutiveErrors = 0
       ∧ (CircuitBreaker.transitionToHalfOpen
      { config := { failureThreshold := 5, successThreshold := 3,
                    halfOpenMaxRequests := 3, minRequestCount := 10 },
        state := CBState.opened, requests := 12, totalErrors := 9,
        consecutiveErrors := 6, consecutiveSuccesses := 2 }).consecutiveSuccesses = 0) :=
  C5_half_open_error
    { config := { failureThreshold := 5, successThreshold := 3,
                  halfOpenMaxRequests := 3, minRequestCount := 10 },
      state := CBState.halfOpen, requests := 1, totalErrors := 7,
      consecutiveErrors := 0, consecutiveSuccesses := 0 }
    { config := { failureThreshold := 5, successThreshold := 3,
                  halfOpenMaxRequests := 3, minRequestCount := 10 },
      state := CBState.opened, requests := 12, totalErrors := 9,
      consecutiveErrors := 6, consecutiveSuccesses := 2 }
    rfl rfl

/-- C8: for an active limit row within its daily window (no reset due),
`CheckDailyLimit(amount)` fails with the daily-limit error exactly when
daily_amount + amount exceeds daily_limit, and otherwise fails with the
daily-count error exactly when daily_count has reached the hardcoded 100;
both the daily and the single check pass unconditionally for an inactive
row. -/
theorem C8_daily_limit_checks (tl tl2 : TransactionLimit) (amount a2 : ℚ) (now : ℤ)
    (hactive : tl.isActive = true)
    (hnoreset : now - tl.lastResetDate < dayNano)
    (hinactive : tl2.isActive = false) :
    ((tl.CheckDailyLimit amount now).1 = Except.error DomainError.dailyLimitExceeded
        ↔ tl.dailyLimit < tl.dailyAmount + amount)
    ∧ (tl.dailyAmount + amount ≤ tl.dailyLimit →
        ((tl.CheckDailyLimit amount now).1 = Except.error DomainError.dailyCountExceeded
          ↔ 100 ≤ tl.dailyCount))
    ∧ (tl2.CheckDailyLimit a2 now).1 = Except.ok ()
    ∧ tl2.CheckSingleLimit a2 = Except.ok () := by
  have hreset : ¬ dayNano ≤ now - tl.lastResetDate := not_le.mpr hnoreset
  refine ⟨?_, ?_, ?_, ?_⟩
  · by_cases hover : tl.dailyLimit < tl.dailyAmount + amount
    · simp [TransactionLimit.CheckDailyLimit, hactive, hreset, hover]
    · by_cases hcount : (100 : ℤ) ≤ tl.dailyCount
      · simp [TransactionLimit.CheckDailyLimit, hactive, hreset, hover, hcount]
      · simp [TransactionLimit.CheckDailyLimit, hactive, hreset, hover, hcount]
  · intro hle
    have hover : ¬ tl.dailyLimit < tl.dailyAmount + amount := not_lt.mpr hle
    by_cases hcount : (100 : ℤ) ≤ tl.dailyCount
    · simp [TransactionLimit.CheckDailyLimit, hactive, hreset, hover, hcount]
    · simp [TransactionLimit.CheckDailyLimit, hactive, hreset, hover, hcount]
  · simp [TransactionLimit.CheckDailyLimit, hinactive]
  · simp [TransactionLimit.CheckSingleLimit, hinactive]

/-- C8 witness: an active row (limit 100, used 80, count 99, inside the daily
window) checked with amount 30, and an inactive row checked with amount
1000000. -/
theorem C8_daily_limit_checks_witness :
    ((TransactionLimit.CheckDailyLimit
        { dailyLimit := 100, weeklyLimit := 500, monthlyLimit := 2000, singleLimit := 50,
          dailyCount := 99, weeklyCount := 0, monthlyCount := 0,
          dailyAmount := 80, weeklyAmount := 0, monthlyAmount := 0,
          lastResetDate := 0, isActive := true } 30 1000).1
        = Except.error DomainError.dailyLimitExceeded
      ↔ (100 : ℚ) < 80 + 30)
    ∧ ((80 : ℚ) + 30 ≤ 100 →
        ((TransactionLimit.CheckDailyLimit
        { dailyLimit := 100, weeklyLimit := 500, monthlyLimit := 2000, singleLimit := 50,
          dailyCount := 99, weeklyCount := 0, monthlyCount := 0,
          dailyAmount := 80, weeklyAmount := 0, monthlyAmount := 0,
          lastResetDate := 0, isActive := true } 30 1000).1
          = Except.error DomainError.dailyCountExceeded
        ↔ (100 : ℤ) ≤ 99))
    ∧ (TransactionLimit.CheckDailyLimit
        { dailyLimit := 100, weeklyLimit := 500, monthlyLimit := 2000, singleLimit := 50,
          dailyCount := 99, weeklyCount := 0, monthlyCount := 0,
          dailyAmount := 80, weeklyAmount := 0, monthlyAmount := 0,
          lastResetDate := 0, isActive := false } 1000000 1000).1 = Except.ok ()
    ∧ TransactionLimit.CheckSingleLimit
        { dailyLimit := 100, weeklyLimit := 500, monthlyLimit := 2000, singleLimit := 50,
          dailyCount := 99, weeklyCount := 0, monthlyCount := 0,
          dailyAmount := 80, weeklyAmount := 0, monthlyAmount := 0,
          lastResetDate := 0, isActive := false } 1000000 = Except.ok () :=
  C8_daily_limit_checks
    { dailyLimit := 100, weeklyLimit := 500, monthlyLimit := 2000, singleLimit := 50,
      dailyCount := 99, weeklyCount := 0, monthlyCount := 0,
      dailyAmount := 80, weeklyAmount := 0, monthlyAmount := 0,
      lastResetDate := 0, isActive := true }
    { dailyLimit := 100, weeklyLimit := 500, monthlyLimit := 2000, singleLimit := 50,
      dailyCount := 99, weeklyCount := 0, monthlyCount := 0,
      dailyAmount := 80, weeklyAmount := 0, monthlyAmount := 0,
      lastResetDate := 0, isActive := false }
    30 1000000 1000 rfl (by decide) rfl

theorem versionFold_nonneg (l : List StoredEvent) :
    0 ≤ l.foldr (fun e m => max e.version m) 0 := by
  induction l with
  | nil => exact le_refl 0
  | cons e t ih => exact le_trans ih (le_max_right _ _)

theorem maxVersion_nonneg (store : List StoredEvent) (A : ℕ) :
    0 ≤ maxVersion store A :=
  versionFold_nonneg _

theorem versionFold_append (l1 l2 : List StoredEvent) :
    (l1 ++ l2).foldr (fun e m => max e.version m) 0
      = max (l1.foldr (fun e m => max e.version m) 0)
            (l2.foldr (fun e m => max e.version m) 0) := by
  induction l1 with
  | nil => simp [max_eq_right (versionFold_nonneg l2)]
  | cons a t ih => simp [ih, max_assoc]

theorem maxVersion_append (s t : List StoredEvent) (A : ℕ) :
    maxVersion (s ++ t) A = max (maxVersion s A) (maxVersion t A) := by
  unfold maxVersion
  rw [List.filter_append, versionFold_append]

theorem maxVersion_cons (x : StoredEvent) (l : List StoredEvent) (A : ℕ) :
    maxVersion (x :: l) A
      = if x.aggregateId = A then max x.version (maxVersion l A) else maxVersion l A := by
  unfold maxVersion
  by_cases h : x.aggregateId = A <;> simp [List.filter_cons, h]

theorem maxVersion_insertEvents (A : ℕ) (rest : List DomainEvent) :
    ∀ (e : DomainEvent) (V : ℤ), -1 ≤ V → e.aggregateId = A →
      (∀ x ∈ rest, x.aggregateId = A) →
      maxVersion (insertEvents (e :: rest) V) A = V + 1 + rest.length := by
  induction rest with
  | nil =>
    intro e V hV hA _
    simp only [insertEvents, maxVersion_cons, hA, if_pos rfl]
    have : maxVersion [] A = 0 := rfl
    rw [this, max_eq_left (by linarith)]
    simp
  | cons f t ih =>
    intro e V hV hA hrest
    have hfA : f.aggregateId = A := hrest f (List.mem_cons_self f t)
    have htA : ∀ x ∈ t, x.aggregateId = A := fun x hx => hrest x (List.mem_cons_of_mem f hx)
    have hstep := ih f (V + 1) (by linarith) hfA htA
    show maxVersion ({ aggregateId := e.aggregateId, version := V + 1, payload := e.payload }
        :: insertEvents (f :: t) (V + 1)) A = V + 1 + ((f :: t).length : ℤ)
    rw [maxVersion_cons]
    simp only [hA, if_pos rfl, hstep]
    rw [max_eq_right (by omega)]
    simp only [List.length_cons]
    push_cast
    ring

theorem insertEvents_versions (E : List DomainEvent) :
    ∀ V : ℤ, (insertEvents E V).map StoredEvent.version
      = (List.range E.length).map (fun i : ℕ => V + (i : ℤ) + 1) := by
  induction E with
  | nil => intro V; simp [insertEvents]
  | cons e rest ih =>
    intro V
    show (V + 1) :: (insertEvents rest (V + 1)).map StoredEvent.version
      = (List.range (rest.length + 1)).map (fun i : ℕ => V + (i : ℤ) + 1)
    rw [List.range_succ_eq_map, List.map_cons, ih (V + 1), List.map_map]
    refine congrArg₂ _ (by simp) (List.map_congr_left ?_)
    intro i _
    simp only [Function.comp_apply]
    push_cast
    ring

/-- C1: `SaveEvents(A, E, V)` checks the stored maximum version for A against
V inside the transaction: on mismatch it fails with the
concurrent-modification error (the transaction rolls back, so the store is
unchanged), and on match it commits events with versions V+1 … V+|E|;
consequently re-sending the same (A, E, V) tuple (E non-empty, events of
aggregate A) right after a successful append fails with the
concurrent-modification error and leaves the store unchanged. -/
theorem C1_save_events_optimistic_concurrency (store : List StoredEvent) (A : ℕ)
    (E : List DomainEvent) (V : ℤ)
    (hne : E ≠ []) (hagg : ∀ e ∈ E, e.aggregateId = A) :
    (maxVersion store A ≠ V →
      SaveEvents store A E V = Except.error DomainError.concurrentModification)
    ∧ (maxVersion store A = V →
        SaveEvents store A E V = Except.ok (store ++ insertEvents E V)
        ∧ (insertEvents E V).map StoredEvent.version
            = (List.range E.length).map (fun i : ℕ => V + (i : ℤ) + 1)
        ∧ SaveEvents (store ++ insertEvents E V) A E V
            = Except.error DomainError.concurrentModification) := by
  constructor
  · intro h
    unfold SaveEvents
    rw [if_pos h]
  · intro hM
    have hV0 : 0 ≤ V := hM ▸ maxVersion_nonneg store A
    refine ⟨?_, insertEvents_versions E V, ?_⟩
    · unfold SaveEvents
      rw [if_neg (by simp [hM])]
    · obtain ⟨e, rest, rfl⟩ := List.exists_cons_of_ne_nil hne
      have hmax : maxVersion (insertEvents (e :: rest) V) A = V + 1 + rest.length :=
        maxVersion_insertEvents A rest e V (by linarith)
          (hagg e (List.mem_cons_self e rest))
          (fun x hx => hagg x (List.mem_cons_of_mem e hx))
      have hne2 : maxVersion (store ++ insertEvents (e :: rest) V) A ≠ V := by
        rw [maxVersion_append, hM, hmax,
            max_eq_right (by linarith [Nat.cast_nonneg (α := ℤ) rest.length])]
        intro hcontra
        have := Nat.cast_nonneg (α := ℤ) rest.length
        omega
      unfold SaveEvents
      rw [if_pos hne2]

/-- C1 witness: an empty store accepts one event for aggregate 1 at expected
version 0 (stored with version 1), and resending the same tuple fails with
the concurrent-modification error. -/
theorem C1_save_events_witness :
    SaveEvents [] 1 [{ aggregateId := 1, payload := 99 }] 0
      = Except.ok [{ aggregateId := 1, version := 1, payload := 99 }]
    ∧ SaveEvents [{ aggregateId := 1, version := 1, payload := 99 }] 1
        [{ aggregateId := 1, payload := 99 }] 0
      = Except.error DomainError.concurrentModification := by
  have h := (C1_save_events_optimistic_concurrency [] 1
    [{ aggregateId := 1, payload := 99 }] 0 (by decide) (by decide)).2 rfl
  exact ⟨h.1, h.2.2⟩

/-- C9: when the aggregate's in-memory version matches the store's maximum
and it holds N ≥ 1 uncommitted events, `EventRepository.Save` appends them at
versions V+1 … V+N but `MarkEventsAsCommitted` advances the in-memory version
only to V+1; hence for N > 1 the very next Save of that aggregate (any
non-empty batch at version V+1) fails with the concurrent-modification error
although no other writer intervened. -/
theorem C9_repository_save_version_advance (store : List StoredEvent) (a : BaseAggregate)
    (hv : maxVersion store a.id = a.version)
    (hne : a.uncommittedEvents ≠ [])
    (hagg : ∀ e ∈ a.uncommittedEvents, e.aggregateId = a.id) :
    EventRepositorySave store a
      = Except.ok (store ++ insertEvents a.uncommittedEvents a.version,
                   a.MarkEventsAsCommitted)
    ∧ a.MarkEventsAsCommitted.version = a.version + 1
    ∧ maxVersion (store ++ insertEvents a.uncommittedEvents a.version) a.id
        = a.version + a.uncommittedEvents.length
    ∧ (1 < a.uncommittedEvents.length →
        ∀ b : BaseAggregate, b.id = a.id → b.version = a.version + 1 →
          b.uncommittedEvents ≠ [] →
          EventRepositorySave (store ++ insertEvents a.uncommittedEvents a.version) b
            = Except.error DomainError.concurrentModification) := by
  have hV0 : 0 ≤ a.version := hv ▸ maxVersion_nonneg store a.id
  obtain ⟨e, rest, hE⟩ := List.exists_cons_of_ne_nil hne
  have hmax : maxVersion (insertEvents a.uncommittedEvents a.version) a.id
      = a.version + 1 + rest.length := by
    rw [hE]
    exact maxVersion_insertEvents a.id rest e a.version (by linarith)
      (hagg e (hE ▸ List.mem_cons_self e rest))
      (fun x hx => hagg x (hE ▸ List.mem_cons_of_mem e hx))
  have hmax2 : maxVersion (store ++ insertEvents a.uncommittedEvents a.version) a.id
      = a.version + a.uncommittedEvents.length := by
    rw [maxVersion_append, hv, hmax,
        max_eq_right (by omega), hE]
    simp only [List.length_cons]
    push_cast
    ring
  refine ⟨?_, rfl, hmax2, ?_⟩
  · unfold EventRepositorySave
    rw [if_neg (by simp [hE])]
    unfold SaveEvents
    rw [if_neg (by simp [hv])]
  · intro hN b hid hver hbne
    unfold EventRepositorySave
    rw [if_neg (by simp [List.isEmpty_iff, hbne])]
    have : maxVersion (store ++ insertEvents a.uncommittedEvents a.version) b.id
        ≠ b.version := by
      rw [hid, hmax2, hver]
      have : (1 : ℤ) < a.uncommittedEvents.length := by exact_mod_cast hN
      omega
    unfold SaveEvents
    rw [if_pos this]

/-- C9 witness: an aggregate at version 0 with two uncommitted events for
aggregate 1 saves into an empty store (rows at versions 1 and 2, in-memory
version 1), and the next save of one event at version 1 fails with the
concurrent-modification error. -/
theorem C9_repository_save_witness :
    EventRepositorySave []
      { id := 1, version := 0,
        uncommittedEvents := [{ aggregateId := 1, payload := 5 },
                              { aggregateId := 1, payload := 6 }] }
      = Except.ok ([{ aggregateId := 1, version := 1, payload := 5 },
                    { aggregateId := 1, version := 2, payload := 6 }],
                   { id := 1, version := 1, uncommittedEvents := [] })
    ∧ EventRepositorySave
        [{ aggregateId := 1, version := 1, payload := 5 },
         { aggregateId := 1, version := 2, payload := 6 }]
        { id := 1, version := 1, uncommittedEvents := [{ aggregateId := 1, payload := 7 }] }
      = Except.error DomainError.concurrentModification := by
  have h := C9_repository_save_version_advance []
    { id := 1, version := 0,
      uncommittedEvents := [{ aggregateId := 1, payload := 5 },
                            { aggregateId := 1, payload := 6 }] }
    rfl (by decide) (by decide)
  exact ⟨h.1, h.2.2.2 (by decide)
    { id := 1, version := 1, uncommittedEvents := [{ aggregateId := 1, payload := 7 }] }
    rfl rfl (by decide)⟩

theorem stateChangedComputes_ne_pending (s : String) (e : EventType)
    (h : StateChangedComputes s e) : s ≠ "pending" := by
  induction h with
  | completed => decide
  | failed => decide
  | cancelled => decide
  | defaultCase s2 e2 h1 h2 h3 hp ih => exact absurd rfl ih

/-- C10: `EventTransactionStateChangedEventType` maps the three terminal
states to their event types, but its default branch re-invokes the function
on the pending state, whose own evaluation again takes the default branch —
so on "pending" (and hence on every state outside the three terminal ones)
the recursion never terminates and no event type is returned, refuting the
claim that the function is total. -/
theorem C10_state_changed_event_type_diverges_on_pending :
    (¬ ∃ e, StateChangedComputes "pending" e)
    ∧ StateChangedComputes "completed" EventType.transactionCompleted
    ∧ StateChangedComputes "failed" EventType.transactionFailed
    ∧ StateChangedComputes "cancelled" EventType.transactionCancelled := by
  refine ⟨?_, .completed, .failed, .cancelled⟩
  rintro ⟨e, h⟩
  exact stateChangedComputes_ne_pending _ _ h rfl

end TransactionAPI
